import Mathlib

/-!
Verification of the LSTM forecasting pipeline of the emigration dashboard
(routes/ml.tsx and its auto-tuning variant).

Modelling conventions:
* JavaScript numbers are modelled as exact rationals extended with the IEEE
  special values NaN and the two infinities (type JSNum).  Rounding error of
  binary floating point is not modelled; the special-value propagation of the
  arithmetic operators (0/0 = NaN, x/0 = plus or minus infinity, NaN poisoning,
  Math.max returning NaN on a NaN argument) is modelled exactly, because the
  guard-related claims hinge on it.
* The trained LSTM predictor is opaque in the source (a tf.LayersModel); it is
  modelled as an arbitrary function from input windows to a JSNum, passed in as
  a parameter.
* Thrown Error objects are modelled as Except.error carrying the message string.
-/

/-- A JavaScript number: an exact rational, one of the two infinities, or NaN. -/
inductive JSNum where
  | num (val : ℚ)
  | posInf
  | negInf
  | nan
deriving DecidableEq, Repr

instance : Inhabited JSNum := ⟨JSNum.nan⟩

/-- JavaScript addition on JSNum (special values as in IEEE-754). -/
def jsAdd : JSNum → JSNum → JSNum
  | JSNum.nan, _ => JSNum.nan
  | _, JSNum.nan => JSNum.nan
  | JSNum.num a, JSNum.num b => JSNum.num (a + b)
  | JSNum.posInf, JSNum.num _ => JSNum.posInf
  | JSNum.num _, JSNum.posInf => JSNum.posInf
  | JSNum.negInf, JSNum.num _ => JSNum.negInf
  | JSNum.num _, JSNum.negInf => JSNum.negInf
  | JSNum.posInf, JSNum.posInf => JSNum.posInf
  | JSNum.negInf, JSNum.negInf => JSNum.negInf
  | JSNum.posInf, JSNum.negInf => JSNum.nan
  | JSNum.negInf, JSNum.posInf => JSNum.nan

/-- JavaScript negation on JSNum. -/
def jsNeg : JSNum → JSNum
  | JSNum.num a => JSNum.num (-a)
  | JSNum.posInf => JSNum.negInf
  | JSNum.negInf => JSNum.posInf
  | JSNum.nan => JSNum.nan

/-- JavaScript subtraction on JSNum. -/
def jsSub (a b : JSNum) : JSNum := jsAdd a (jsNeg b)

/-- JavaScript multiplication on JSNum (infinity times zero is NaN). -/
def jsMul : JSNum → JSNum → JSNum
  | JSNum.nan, _ => JSNum.nan
  | _, JSNum.nan => JSNum.nan
  | JSNum.num a, JSNum.num b => JSNum.num (a * b)
  | JSNum.posInf, JSNum.num b =>
      if b = 0 then JSNum.nan else if 0 < b then JSNum.posInf else JSNum.negInf
  | JSNum.num a, JSNum.posInf =>
      if a = 0 then JSNum.nan else if 0 < a then JSNum.posInf else JSNum.negInf
  | JSNum.negInf, JSNum.num b =>
      if b = 0 then JSNum.nan else if 0 < b then JSNum.negInf else JSNum.posInf
  | JSNum.num a, JSNum.negInf =>
      if a = 0 then JSNum.nan else if 0 < a then JSNum.negInf else JSNum.posInf
  | JSNum.posInf, JSNum.posInf => JSNum.posInf
  | JSNum.negInf, JSNum.negInf => JSNum.posInf
  | JSNum.posInf, JSNum.negInf => JSNum.negInf
  | JSNum.negInf, JSNum.posInf => JSNum.negInf

/-- JavaScript division on JSNum.  Division by (positive) zero yields an
infinity of the sign of the numerator, and 0/0 yields NaN; negative zero is
not modelled (the divisors arising in the pipeline are plain zeros). -/
def jsDiv : JSNum → JSNum → JSNum
  | JSNum.nan, _ => JSNum.nan
  | _, JSNum.nan => JSNum.nan
  | JSNum.num a, JSNum.num b =>
      if b = 0 then (if a = 0 then JSNum.nan else if 0 < a then JSNum.posInf else JSNum.negInf)
      else JSNum.num (a / b)
  | JSNum.num _, JSNum.posInf => JSNum.num 0
  | JSNum.num _, JSNum.negInf => JSNum.num 0
  | JSNum.posInf, JSNum.num b => if 0 ≤ b then JSNum.posInf else JSNum.negInf
  | JSNum.negInf, JSNum.num b => if 0 ≤ b then JSNum.negInf else JSNum.posInf
  | JSNum.posInf, JSNum.posInf => JSNum.nan
  | JSNum.posInf, JSNum.negInf => JSNum.nan
  | JSNum.negInf, JSNum.posInf => JSNum.nan
  | JSNum.negInf, JSNum.negInf => JSNum.nan

/-- Math.abs on JSNum. -/
def jsAbs : JSNum → JSNum
  | JSNum.num a => JSNum.num |a|
  | JSNum.posInf => JSNum.posInf
  | JSNum.negInf => JSNum.posInf
  | JSNum.nan => JSNum.nan

/-- Math.max of two JSNum values: NaN if either argument is NaN. -/
def jsMax : JSNum → JSNum → JSNum
  | JSNum.nan, _ => JSNum.nan
  | _, JSNum.nan => JSNum.nan
  | JSNum.posInf, _ => JSNum.posInf
  | _, JSNum.posInf => JSNum.posInf
  | JSNum.negInf, b => b
  | a, JSNum.negInf => a
  | JSNum.num a, JSNum.num b => JSNum.num (max a b)

/-- Math.round on JSNum: half-up rounding (Math.round(x) = floor(x + 1/2))
for finite values, identity on the special values. -/
def jsRound : JSNum → JSNum
  | JSNum.num q => JSNum.num ((⌊q + 1 / 2⌋ : ℤ) : ℚ)
  | JSNum.posInf => JSNum.posInf
  | JSNum.negInf => JSNum.negInf
  | JSNum.nan => JSNum.nan

/-- Math.min spread over a list (ml.tsx line 174).  The JavaScript call on an
empty spread returns Infinity; the pipeline only normalizes nonempty series,
and on an empty list the value returned here is never consumed (the map over
the data is empty), so a plain rational fold suffices. -/
def listMin : List ℚ → ℚ
  | [] => 0
  | x :: xs => xs.foldl min x

/-- Math.max spread over a list (ml.tsx line 175); see listMin. -/
def listMax : List ℚ → ℚ
  | [] => 0
  | x :: xs => xs.foldl max x

/-- Result record of normalizeData: the scaled series and the min and max
that were used (ml.tsx line 177 returns all three). -/
structure NormalizeResult where
  normalized : List JSNum
  min : ℚ
  max : ℚ
deriving Repr

/-- normalizeData (ml.tsx lines 173-178, part_002 lines 171-176): scale each
value to (val - min) / (max - min).  The division is NOT guarded: on a
constant series it is 0/0. -/
def normalizeData (data : List ℚ) : NormalizeResult :=
  let mn := listMin data
  let mx := listMax data
  ⟨data.map fun val => jsDiv (JSNum.num (val - mn)) (JSNum.num (mx - mn)), mn, mx⟩

/-- denormalizeData (ml.tsx lines 181-183, part_002 lines 178-180):
val * (max - min) + min. -/
def denormalizeData (normalized : List JSNum) (mn mx : ℚ) : List JSNum :=
  normalized.map fun val => jsAdd (jsMul val (JSNum.num (mx - mn))) (JSNum.num mn)

/-- JavaScript Array.prototype.slice(start, stop) for in-range nonnegative
indices: the elements at positions start ≤ i < stop. -/
def jsSlice (data : List α) (start stop : ℕ) : List α :=
  (data.drop start).take (stop - start)

/-- createSequences (ml.tsx lines 186-196, part_002 lines 182-192): for i from
lookback to data.length - 1 push data.slice(i - lookback, i) onto X and
data[i] onto y.  Every index i lies inside the list, so the getD default is
never consumed. -/
def createSequences [Inhabited α] (data : List α) (lookback : ℕ) :
    List (List α) × List α :=
  ((List.range' lookback (data.length - lookback)).map fun i =>
      jsSlice data (i - lookback) i,
   (List.range' lookback (data.length - lookback)).map fun i => data.getD i default)

/-- The four tensors-to-be of one training run (trainSingleModel lines
235-241): train windows, train targets, test windows, test targets. -/
structure PrepResult where
  trainX : List (List JSNum)
  trainY : List JSNum
  testX : List (List JSNum)
  testY : List JSNum
deriving Repr

/-- The split-then-window step of trainModel / trainSingleModel (ml.tsx lines
250-256, part_002 lines 231-241): splitIndex = Math.floor(length * 0.8),
train = slice(0, splitIndex), test = slice(splitIndex), and each side is
windowed separately by createSequences. -/
def splitAndWindow (normalized : List JSNum) (lookback : ℕ) : PrepResult :=
  let splitIndex := (⌊(normalized.length : ℚ) * (8 / 10)⌋).toNat
  let trainData := normalized.take splitIndex
  let testData := normalized.drop splitIndex
  let trainSeq := createSequences trainData lookback
  let testSeq := createSequences testData lookback
  ⟨trainSeq.1, trainSeq.2, testSeq.1, testSeq.2⟩

/-- The data-preparation prefix of trainModel / trainSingleModel (ml.tsx lines
243-256, part_002 lines 225-241): the insufficient-data guard (the
InsufficientDataError of the specification, thrown as an Error with this
message), then normalization, split, and windowing. -/
def prepareTrainingData (timeSeriesData : List ℚ) (lookback : ℕ) :
    Except String PrepResult :=
  if timeSeriesData.length < lookback + 10 then
    Except.error ("Not enough data. Need at least " ++ toString (lookback + 10)
      ++ " data points.")
  else
    Except.ok (splitAndWindow (normalizeData timeSeriesData).normalized lookback)

/-- JavaScript indexing actuals[i] as it occurs in the accuracy computation:
an out-of-range access yields undefined, whose arithmetic is NaN. -/
def jsIndex (l : List ℚ) (i : ℕ) : JSNum :=
  match l[i]? with
  | some q => JSNum.num q
  | none => JSNum.nan

/-- One term of the accuracy computation (trainSingleModel lines 262-265,
trainModel lines 302-305): Math.max(0, 1 - Math.abs(pred - actual) / actual).
The division is not guarded against actual = 0. -/
def pointAccuracy (pred : ℚ) (actual : JSNum) : JSNum :=
  jsMax (JSNum.num 0)
    (jsSub (JSNum.num 1) (jsDiv (jsAbs (jsSub (JSNum.num pred) actual)) actual))

/-- The accuracy metric (trainSingleModel lines 262-266, trainModel lines
302-306): the mean of the per-point terms over ALL test points, times 100. -/
def accuracyCode (preds actuals : List ℚ) : JSNum :=
  let percentageErrors :=
    (List.range preds.length).map fun i => pointAccuracy (preds.getD i 0) (jsIndex actuals i)
  jsMul (jsDiv (percentageErrors.foldl jsAdd (JSNum.num 0))
    (JSNum.num percentageErrors.length)) (JSNum.num 100)

/-- The accuracy formula as claim C5 states it: points whose actual value is 0
are excluded from the average; none if every point is excluded.  This
definition follows the words of the specification and exists only to be
compared with accuracyCode. -/
def accuracySpecExcludingZero (preds actuals : List ℚ) : Option ℚ :=
  let pts := (preds.zip actuals).filter fun pa => pa.2 ≠ 0
  if pts.length = 0 then none
  else some (((pts.map fun pa => max 0 (1 - |pa.1 - pa.2| / pa.2)).sum
    / (pts.length : ℚ)) * 100)

/-- One hyperparameter configuration (part_002 lines 78-82 and 303-311). -/
structure HPConfig where
  lookback : ℕ
  lstmNeurons : ℕ
  dropout : ℚ
deriving DecidableEq, Repr

/-- HYPERPARAMETERS.lookback (part_002 line 79). -/
def HYPERPARAMETERS_lookback : List ℕ := [3]

/-- HYPERPARAMETERS.lstmNeurons (part_002 line 80). -/
def HYPERPARAMETERS_lstmNeurons : List ℕ := [32, 50, 64, 100]

/-- HYPERPARAMETERS.dropout (part_002 line 81). -/
def HYPERPARAMETERS_dropout : List ℚ := [1 / 10]

/-- The combinations array built by the nested forEach of autoTuneModels
(part_002 lines 303-311): the Cartesian product in nested enumeration order. -/
def hyperparameterCombinations : List HPConfig :=
  HYPERPARAMETERS_lookback.flatMap fun lb =>
    HYPERPARAMETERS_lstmNeurons.flatMap fun neurons =>
      HYPERPARAMETERS_dropout.map fun dropout => ⟨lb, neurons, dropout⟩

/-- The outcome of one successful candidate training, as far as the tuning
controller consumes it: the configuration and the two metrics.  The accuracy
and mae of a trained candidate are finite numbers here; the (accuracy || 0)
null-coalescing of the source only matters for null fields, which a trained
candidate never has. -/
structure CandidateModel where
  config : HPConfig
  mae : ℚ
  accuracy : ℚ
deriving DecidableEq, Repr

/-- Stable insertion into a list sorted by descending accuracy: the new
element goes before the first element whose accuracy it reaches, hence after
every earlier element of equal accuracy. -/
def insertByAccuracyDesc (m : CandidateModel) :
    List CandidateModel → List CandidateModel
  | [] => [m]
  | x :: xs =>
    if x.accuracy ≤ m.accuracy then m :: x :: xs else x :: insertByAccuracyDesc m xs

/-- The sort of autoTuneModels (part_002 line 347):
allModels.sort((a, b) => (b.accuracy || 0) - (a.accuracy || 0)).
Array.prototype.sort is stable and this comparator is a total preorder on the
accuracy field alone, so its result is the unique accuracy-descending stable
rearrangement, computed here by stable insertion sort. -/
def sortByAccuracyDesc : List CandidateModel → List CandidateModel
  | [] => []
  | x :: xs => insertByAccuracyDesc x (sortByAccuracyDesc xs)

/-- autoTuneModels (part_002 lines 292-364), reduced to its data flow: the
candidate trainer is invoked on each combination in enumeration order (the
source for-loop awaits each attempt before starting the next); a failed
attempt (the catch at lines 342-344) is skipped; the collected successes are
sorted by descending accuracy.  The trainer is the opaque per-configuration
training run, passed as an oracle; none for a thrown TrainingFailure. -/
def autoTuneModels (trainer : HPConfig → Option CandidateModel) :
    List CandidateModel :=
  sortByAccuracyDesc (hyperparameterCombinations.filterMap trainer)

/-- The ordering claim C6 asserts for the returned sequence: descending
accuracy with ties broken by lower mae.  Stated only to be compared with the
order the code actually produces. -/
def claimTuneOrder (p q : CandidateModel) : Prop :=
  q.accuracy < p.accuracy ∨ (q.accuracy = p.accuracy ∧ p.mae ≤ q.mae)

instance : DecidableRel claimTuneOrder := by
  intro p q
  unfold claimTuneOrder
  infer_instance

/-- Concrete trainer used to exhibit the missing mae tie-break: the 32-neuron
and 50-neuron configurations succeed with equal accuracy 90 and maes 100 and
5, the other two configurations fail. -/
def tieBreakTrainer : HPConfig → Option CandidateModel := fun c =>
  if c.lstmNeurons = 32 then some ⟨c, 100, 90⟩
  else if c.lstmNeurons = 50 then some ⟨c, 5, 90⟩
  else none

/-- Concrete trainer for the witness of the amended C6 theorem: every
configuration succeeds, with accuracy equal to its neuron count. -/
def neuronsTrainer : HPConfig → Option CandidateModel := fun c =>
  some ⟨c, 0, (c.lstmNeurons : ℚ)⟩

/-- JavaScript Array.prototype.slice(-n) for n > 0: the last n elements (all
elements when n exceeds the length).  slice(-0) is slice(0), the whole
array. -/
def sliceFromEnd (l : List α) (n : ℕ) : List α :=
  if n = 0 then l else l.drop (l.length - n)

/-- The autoregressive prediction loop of generateForecast (part_002 lines
413-423, ml.tsx lines 548-565): each iteration predicts from the current
window, records the prediction, and advances the window by dropping its
first element and appending the prediction. -/
def rollout (predict : List JSNum → JSNum) : ℕ → List JSNum → List JSNum
  | 0, _ => []
  | n + 1, cur => predict cur :: rollout predict n (cur.tail ++ [predict cur])

/-- The window after i autoregressive steps, exactly as claim C7 describes it:
it starts as the seed and advances by dropping the oldest element and
appending the prediction made from the previous window.  Used to state that
the i-th forecast depends only on the seed and earlier predictions. -/
def autoregWindow (predict : List JSNum → JSNum) (seed : List JSNum) :
    ℕ → List JSNum
  | 0 => seed
  | i + 1 =>
    (autoregWindow predict seed i).tail ++ [predict (autoregWindow predict seed i)]

/-- One forecast table row (part_002 lines 428-432, ml.tsx lines 574-578). -/
structure ForecastPoint where
  year : ℚ
  predicted : JSNum
  pointType : String
deriving DecidableEq, Repr

/-- The model fields generateForecast reads or checks: the lookback it uses
(part_002 line 410) and the normalizationParams stored at training time
(checked for presence at ml.tsx lines 531-534 but never read back). -/
structure StoredModel where
  lookback : ℕ
  normMin : ℚ
  normMax : ℚ
deriving DecidableEq, Repr

/-- generateForecast (part_002 lines 398-432, ml.tsx lines 518-578), reduced
to its data flow.  timeSeriesData is extractTimeSeriesData() and lastYear is
emigrationData[emigrationData.length - 1].Year.  Note that min and max are
recomputed by normalizeData from the series present at forecast time
(part_002 line 408, ml.tsx line 541) and those recomputed values feed the
final denormalizeData call (part_002 line 425, ml.tsx line 568); the stored
model.normMin / model.normMax are not consulted. -/
def generateForecast (predict : List JSNum → JSNum) (model : StoredModel)
    (timeSeriesData : List ℚ) (lastYear : ℚ) (forecastYears : ℕ) :
    List ForecastPoint :=
  let norm := normalizeData timeSeriesData
  let currentSequence := sliceFromEnd norm.normalized model.lookback
  let predictions := rollout predict forecastYears currentSequence
  let denormalizedPredictions := denormalizeData predictions norm.min norm.max
  denormalizedPredictions.enum.map fun p =>
    ⟨lastYear + (p.1 : ℚ) + 1, jsRound p.2, "forecast"⟩

/-- Constant predictor used in the concrete forecast theorems: it always
predicts the normalized value 1/2. -/
def predictHalf : List JSNum → JSNum := fun _ => JSNum.num (1 / 2)

/-- Concrete stored model for the normalization-parameter theorems: lookback
3, with normalizationParams min 0 and max 100 recorded at training time. -/
def storedModel0 : StoredModel := ⟨3, 0, 100⟩

/-- Concrete series present at forecast time for the normalization-parameter
theorems: its min and max are 0 and 200, differing from the stored max 100. -/
def forecastSeries0 : List ℚ := [0, 50, 100, 150, 200]

/-- One dynamic field value of a yearly Firestore record, as the aggregator
distinguishes them (ml.tsx lines 155-163): a plain number, an object carrying
a numeric emigrants field, an object without that field, or anything else.
The typed interface declares emigrants as a number. -/
inductive FieldVal where
  | numVal (q : ℚ)
  | objVal (emigrants : ℚ)
  | objNoCount
  | otherVal
deriving DecidableEq, Repr

/-- One yearly record: its Year field and the remaining (category, value)
entries in object-insertion order. -/
structure YearRecord where
  year : ℚ
  fields : List (String × FieldVal)
deriving Repr

instance : Inhabited YearRecord := ⟨⟨0, []⟩⟩

/-- The per-entry contribution of the aggregator (ml.tsx lines 158-163): the
emigrants field when the value is an object carrying one, else 0. -/
def categoryContribution : FieldVal → ℚ
  | FieldVal.objVal e => e
  | _ => 0

/-- extractTimeSeriesData (ml.tsx lines 148-170, part_002 lines 148-169):
for each yearly record, fold over Object.entries (the Year entry included,
skipped by its key) accumulating the contributions. -/
def extractTimeSeriesData (emigrationData : List YearRecord) : List ℚ :=
  emigrationData.map fun yearData =>
    (("Year", FieldVal.numVal yearData.year) :: yearData.fields).foldl
      (fun totalEmigrants kv =>
        if kv.1 = "Year" then totalEmigrants
        else totalEmigrants + categoryContribution kv.2) 0

/-- Concrete record for the C9 counterexample: one category whose wrapped
count is the negative number -5. -/
def negCountRecord : YearRecord := ⟨2000, [("USA", FieldVal.objVal (-5))]⟩

/-- The per-entry count claim C9 reasons about: the emigrants field of an
object-shaped value, absent otherwise.  Used to characterize the aggregate. -/
def objValCount : FieldVal → Option ℚ
  | FieldVal.objVal e => some e
  | _ => none

/-- One row of forecastResults.combined (ml.tsx line 42): optional actual and
predicted values. -/
structure CombinedRow where
  year : ℚ
  actual : Option ℚ
  predicted : Option ℚ
  rowType : String
deriving DecidableEq, Repr

instance : Inhabited CombinedRow := ⟨⟨0, none, none, ""⟩⟩

/-- The JavaScript expression row.actual || row.predicted (ml.tsx line 611)
on optional numbers: undefined and 0 are falsy, so a missing or zero actual
falls through to predicted. -/
def jsOrNum : Option ℚ → Option ℚ → Option ℚ
  | some x, b => if x = 0 then b else some x
  | none, b => b

/-- The per-row cell construction of exportForecast (ml.tsx lines 609-613):
[row.year, row.actual || row.predicted, row.type].  A none cell is rendered
as the empty string by Array.prototype.join. -/
def exportCombinedRows (combined : List CombinedRow) :
    List (ℚ × Option ℚ × String) :=
  combined.map fun row => (row.year, jsOrNum row.actual row.predicted, row.rowType)

/-- The concrete 10-point series of the end-to-end scenario of claim C2. -/
def series10 : List ℚ := [10, 12, 11, 15, 20, 18, 25, 30, 28, 35]

/-! ## Theorems -/

/-- C1: for every scalar series of length M and every lookback L < M,
createSequences returns exactly M - L supervised windows, each pairing the L
consecutive values starting at position k with the immediately following
value data[k + L] as target; and for every L >= M the training pipeline
fails with the insufficient-data error (the InsufficientDataError of the
specification) rather than returning a result. -/
theorem createSequences_window_spec :
    (∀ (data : List ℚ) (L : ℕ), L < data.length →
      (createSequences data L).1.length = data.length - L ∧
      (createSequences data L).2.length = data.length - L ∧
      ∀ k, k < data.length - L →
        (createSequences data L).1.getD k [] = (data.drop k).take L ∧
        ((createSequences data L).1.getD k []).length = L ∧
        (createSequences data L).2.getD k 0 = data.getD (k + L) 0) ∧
    (∀ (data : List ℚ) (L : ℕ), data.length ≤ L →
      prepareTrainingData data L =
        Except.error ("Not enough data. Need at least " ++ toString (L + 10)
          ++ " data points.")) := by
  constructor
  · intro data L hL
    refine ⟨by simp [createSequences], by simp [createSequences], ?_⟩
    intro k hk
    have hk' : k < (List.range' L (data.length - L)).length := by
      simpa using hk
    have h1 : (createSequences data L).1.getD k [] = (data.drop k).take L := by
      unfold createSequences
      rw [List.getD_eq_getElem?_getD, List.getElem?_map,
        List.getElem?_eq_getElem hk', List.getElem_range']
      simp only [Option.map_some', Option.getD_some, jsSlice, Nat.one_mul,
        Nat.add_sub_cancel_left, Nat.add_sub_cancel]
    refine ⟨h1, ?_, ?_⟩
    · rw [h1]
      simp only [List.length_take, List.length_drop]
      omega
    · unfold createSequences
      rw [List.getD_eq_getElem?_getD, List.getElem?_map,
        List.getElem?_eq_getElem hk', List.getElem_range']
      simp only [Option.map_some', Option.getD_some, Nat.one_mul]
      congr 1
      omega
  · intro data L h
    unfold prepareTrainingData
    rw [if_pos (by omega)]

/-- Witness for C1 at the concrete series [1,2,3,4,5] with lookback 2
(window 1 is [2,3] with target 4) and at [1,2,3] with lookback 5 (pipeline
error). -/
theorem createSequences_window_spec_witness :
    ((createSequences ([1, 2, 3, 4, 5] : List ℚ) 2).1.getD 1 [] = [2, 3] ∧
      (createSequences ([1, 2, 3, 4, 5] : List ℚ) 2).2.getD 1 0 = 4) ∧
    prepareTrainingData ([1, 2, 3] : List ℚ) 5 =
      Except.error "Not enough data. Need at least 15 data points." := by
  have h := (createSequences_window_spec.1 [1, 2, 3, 4, 5] 2 (by norm_num)).2.2 1
    (by norm_num)
  refine ⟨⟨h.1.trans (by rfl), h.2.2.trans (by rfl)⟩, ?_⟩
  exact (createSequences_window_spec.2 [1, 2, 3] 5 (by norm_num)).trans (by rfl)

/-- The normalizer preserves the length of the series. -/
theorem normalizeData_length (data : List ℚ) :
    (normalizeData data).normalized.length = data.length := by
  simp [normalizeData]

/-- C2 counterexample: on the series [10,12,11,15,20,18,25,30,28,35] with
lookback 3 the pipeline does not produce 7 windows split 5/2: it throws the
insufficient-data error (10 < 3 + 10), and even the unguarded
split-then-window step yields 5 train windows and 0 test windows, because
the 80/20 split is applied to the raw series before windowing. -/
theorem trainPipeline_scenario_cex :
    prepareTrainingData series10 3 =
      Except.error "Not enough data. Need at least 13 data points." ∧
    (splitAndWindow (normalizeData series10).normalized 3).trainX.length +
      (splitAndWindow (normalizeData series10).normalized 3).testX.length ≠ 7 ∧
    (splitAndWindow (normalizeData series10).normalized 3).testX.length ≠ 2 := by
  refine ⟨?_, ?_, ?_⟩
  · unfold prepareTrainingData
    rw [if_pos (by norm_num [series10])]
    rfl
  · simp [splitAndWindow, createSequences, normalizeData_length, series10]
    rw [show ⌊(10 : ℚ) * (8 / 10)⌋ = 8 from by norm_num]
    decide
  · simp [splitAndWindow, createSequences, normalizeData_length, series10]
    rw [show ⌊(10 : ℚ) * (8 / 10)⌋ = 8 from by norm_num]
    decide

/-- C2 amended: on the 10-point series with lookback 3 the training pipeline
fails with the insufficient-data error, since 10 is below the required
lookback + 10 = 13 points; moreover the 80/20 split is chronological on the
raw series (train = first Math.floor(10 * 0.8) = 8 points, test = last 2),
and windowing each side separately would give 5 train windows and 0 test
windows. -/
theorem trainPipeline_scenario_amended :
    prepareTrainingData series10 3 =
      Except.error "Not enough data. Need at least 13 data points." ∧
    ((normalizeData series10).normalized.take
      ((⌊((normalizeData series10).normalized.length : ℚ) * (8 / 10)⌋).toNat)).length = 8 ∧
    (splitAndWindow (normalizeData series10).normalized 3).trainX.length = 5 ∧
    (splitAndWindow (normalizeData series10).normalized 3).testX.length = 0 := by
  refine ⟨?_, ?_, ?_, ?_⟩
  · unfold prepareTrainingData
    rw [if_pos (by norm_num [series10])]
    rfl
  · rw [List.length_take, normalizeData_length]
    norm_num [series10]
    decide
  · simp [splitAndWindow, createSequences, normalizeData_length, series10]
    rw [show ⌊(10 : ℚ) * (8 / 10)⌋ = 8 from by norm_num]
    decide
  · simp [splitAndWindow, createSequences, normalizeData_length, series10]
    rw [show ⌊(10 : ℚ) * (8 / 10)⌋ = 8 from by norm_num]
    decide

/-- C3: for every non-constant series (min strictly below max), denormalizing
the normalized series returns the original values exactly (hence elementwise
within the tolerance 1e-9 of the claim), where the scaling parameters are the
ones normalizeData computed. -/
theorem normalize_denormalize_roundtrip (data : List ℚ)
    (h : listMin data < listMax data) :
    denormalizeData (normalizeData data).normalized (normalizeData data).min
        (normalizeData data).max = data.map JSNum.num ∧
    ∀ i, i < data.length →
      ∃ q : ℚ,
        (denormalizeData (normalizeData data).normalized (normalizeData data).min
          (normalizeData data).max).getD i JSNum.nan = JSNum.num q ∧
        |q - data.getD i 0| ≤ 1 / 1000000000 := by
  have hd : listMax data - listMin data ≠ 0 := sub_ne_zero.mpr (ne_of_gt h)
  have h1 : denormalizeData (normalizeData data).normalized (normalizeData data).min
      (normalizeData data).max = data.map JSNum.num := by
    simp only [normalizeData, denormalizeData, List.map_map]
    apply List.map_congr_left
    intro v hv
    simp only [Function.comp_apply, jsDiv, if_neg hd, jsMul, jsAdd]
    congr 1
    field_simp
  refine ⟨h1, ?_⟩
  intro i hi
  refine ⟨data.getD i 0, ?_, by simp⟩
  rw [h1, List.getD_eq_getElem?_getD, List.getElem?_map,
    List.getElem?_eq_getElem hi]
  simp [List.getD_eq_getElem?_getD, List.getElem?_eq_getElem hi]

/-- Witness for C3 at the concrete series [1, 3]. -/
theorem normalize_denormalize_roundtrip_witness :
    listMin [1, 3] < listMax [1, 3] ∧
    ∃ q : ℚ,
      (denormalizeData (normalizeData [1, 3]).normalized (normalizeData [1, 3]).min
        (normalizeData [1, 3]).max).getD 1 JSNum.nan = JSNum.num q ∧
      |q - ([1, 3] : List ℚ).getD 1 0| ≤ 1 / 1000000000 := by
  have hmm : listMin [(1 : ℚ), 3] < listMax [1, 3] := by
    norm_num [listMin, listMax, min_def, max_def]
  exact ⟨hmm, (normalize_denormalize_roundtrip [1, 3] hmm).2 1 (by norm_num)⟩

/-- Folding min over a list of copies of c, starting from c, stays at c. -/
theorem foldl_min_const (c : ℚ) :
    ∀ (xs : List ℚ) (a : ℚ), (∀ x ∈ xs, x = c) → a = c → xs.foldl min a = c
  | [], _, _, ha => ha
  | x :: xs, a, hx, ha => by
    simp only [List.foldl_cons]
    exact foldl_min_const c xs (min a x)
      (fun y hy => hx y (List.mem_cons_of_mem x hy))
      (by rw [hx x (List.mem_cons_self x xs), ha, min_self])

/-- Folding max over a list of copies of c, starting from c, stays at c. -/
theorem foldl_max_const (c : ℚ) :
    ∀ (xs : List ℚ) (a : ℚ), (∀ x ∈ xs, x = c) → a = c → xs.foldl max a = c
  | [], _, _, ha => ha
  | x :: xs, a, hx, ha => by
    simp only [List.foldl_cons]
    exact foldl_max_const c xs (max a x)
      (fun y hy => hx y (List.mem_cons_of_mem x hy))
      (by rw [hx x (List.mem_cons_self x xs), ha, max_self])

/-- The minimum of a nonempty constant series is its constant value. -/
theorem listMin_const (data : List ℚ) (c : ℚ) (hne : data ≠ [])
    (hc : ∀ x ∈ data, x = c) : listMin data = c := by
  match data with
  | [] => exact absurd rfl hne
  | x :: xs =>
    simp only [listMin]
    exact foldl_min_const c xs x
      (fun y hy => hc y (List.mem_cons_of_mem x hy))
      (hc x (List.mem_cons_self x xs))

/-- The maximum of a nonempty constant series is its constant value. -/
theorem listMax_const (data : List ℚ) (c : ℚ) (hne : data ≠ [])
    (hc : ∀ x ∈ data, x = c) : listMax data = c := by
  match data with
  | [] => exact absurd rfl hne
  | x :: xs =>
    simp only [listMax]
    exact foldl_max_const c xs x
      (fun y hy => hc y (List.mem_cons_of_mem x hy))
      (hc x (List.mem_cons_self x xs))

/-- C4 counterexample: on the constant series [5, 5] the normalizer returns
NaN for every scaled value (the division 0/0 is unguarded), not 0. -/
theorem normalizeData_constant_cex :
    (normalizeData [5, 5]).normalized = [JSNum.nan, JSNum.nan] ∧
    (normalizeData [5, 5]).normalized ≠ [JSNum.num 0, JSNum.num 0] := by
  have h : (normalizeData [(5 : ℚ), 5]).normalized = [JSNum.nan, JSNum.nan] := by
    norm_num [normalizeData, jsDiv, listMin, listMax, min_def, max_def]
  refine ⟨h, ?_⟩
  rw [h]
  simp

/-- C4 amended: the normalizer does not guard the division; on every
constant nonempty series each scaled value is the non-numeric NaN (0/0),
never 0. -/
theorem normalizeData_constant_amended (data : List ℚ) (c : ℚ) (hne : data ≠ [])
    (hc : ∀ x ∈ data, x = c) :
    ∀ y ∈ (normalizeData data).normalized, y = JSNum.nan := by
  intro y hy
  simp only [normalizeData] at hy
  rcases List.mem_map.mp hy with ⟨v, hv, rfl⟩
  rw [listMin_const data c hne hc, listMax_const data c hne hc, hc v hv]
  simp [jsDiv]

/-- Witness for C4 at the constant series [7, 7]. -/
theorem normalizeData_constant_amended_witness :
    (normalizeData [7, 7]).normalized.getD 0 (JSNum.num 5) = JSNum.nan := by
  apply normalizeData_constant_amended [7, 7] 7 (by simp)
    (by
      intro x hx
      simp only [List.mem_cons, List.not_mem_nil, or_false] at hx
      rcases hx with h | h <;> exact h)
  have hev : (normalizeData [(7 : ℚ), 7]).normalized = [JSNum.nan, JSNum.nan] := by
    norm_num [normalizeData, jsDiv, listMin, listMax, min_def, max_def]
  rw [hev]
  simp

/-- Summing a list of finite JSNum values with jsAdd is rational addition. -/
theorem foldl_jsAdd_num (l : List ℚ) (a : ℚ) :
    (l.map JSNum.num).foldl jsAdd (JSNum.num a) = JSNum.num (a + l.sum) := by
  induction l generalizing a with
  | nil => simp
  | cons x xs ih =>
    simp only [List.map_cons, List.foldl_cons, jsAdd, List.sum_cons]
    rw [ih]
    congr 1
    ring

/-- Subtraction of two finite JSNum values is rational subtraction. -/
theorem jsSub_num (a b : ℚ) : jsSub (JSNum.num a) (JSNum.num b) = JSNum.num (a - b) := by
  simp only [jsSub, jsNeg, jsAdd]
  congr 1
  ring

/-- The per-point accuracy term on finite inputs, provided the point is not
the fully degenerate predicted = actual = 0 (which gives NaN): a zero actual
yields the term 0 (via division by zero to infinity), any other actual the
rational max(0, 1 - |pred - actual| / actual). -/
theorem pointAccuracy_num (p a : ℚ) (h : ¬(a = 0 ∧ p = 0)) :
    pointAccuracy p (JSNum.num a) =
      JSNum.num (if a = 0 then 0 else max 0 (1 - |p - a| / a)) := by
  by_cases ha : a = 0
  · subst ha
    have hp : p ≠ 0 := fun hp => h ⟨rfl, hp⟩
    have e3 : jsDiv (jsAbs (JSNum.num (p - 0))) (JSNum.num 0) = JSNum.posInf := by
      simp [jsAbs, jsDiv, abs_ne_zero.mpr hp, abs_pos.mpr hp]
    rw [pointAccuracy, jsSub_num, e3]
    simp [jsSub, jsNeg, jsAdd, jsMax]
  · have e3 : jsDiv (jsAbs (JSNum.num (p - a))) (JSNum.num a) =
        JSNum.num (|p - a| / a) := by
      simp [jsAbs, jsDiv, ha]
    rw [pointAccuracy, jsSub_num, e3, jsSub_num]
    simp [jsMax, ha]

/-- C5 amended: accuracyPercent is the average of
max(0, 1 - |predicted - actual| / actual) over ALL test points: a point whose
actual value is 0 (with predicted nonzero) contributes the term 0 through the
division by zero, but still counts in the denominator; no point is excluded.
(When some point has predicted = actual = 0 the whole metric is NaN instead;
such points are ruled out by hypothesis here.) -/
theorem accuracy_formula_amended (preds actuals : List ℚ)
    (hlen : preds.length = actuals.length) (hne : preds ≠ [])
    (h : ∀ pa ∈ preds.zip actuals, ¬(pa.2 = 0 ∧ pa.1 = 0)) :
    accuracyCode preds actuals =
      JSNum.num ((((preds.zip actuals).map fun pa =>
          if pa.2 = 0 then 0 else max 0 (1 - |pa.1 - pa.2| / pa.2)).sum /
        (preds.length : ℚ)) * 100) := by
  have key : (List.range preds.length).map
        (fun i => pointAccuracy (preds.getD i 0) (jsIndex actuals i)) =
      ((preds.zip actuals).map fun pa =>
        if pa.2 = 0 then (0 : ℚ) else max 0 (1 - |pa.1 - pa.2| / pa.2)).map
        JSNum.num := by
    apply List.ext_getElem
    · simp [List.length_zip, hlen]
    · intro n h1 h2
      simp only [List.getElem_map, List.getElem_range, List.getElem_zip]
      have hn : n < preds.length := by simpa using h1
      have hn2 : n < actuals.length := hlen ▸ hn
      have e1 : preds.getD n 0 = preds[n] := List.getD_eq_getElem _ _ hn
      have e2 : jsIndex actuals n = JSNum.num actuals[n] := by
        simp [jsIndex, List.getElem?_eq_getElem hn2]
      rw [e1, e2, pointAccuracy_num]
      have hmem : (preds[n], actuals[n]) ∈ preds.zip actuals := by
        have hz : n < (preds.zip actuals).length := by
          simp [List.length_zip, hlen]
          omega
        have := List.getElem_mem hz
        rwa [List.getElem_zip] at this
      exact h _ hmem
  have hn0 : preds.length ≠ 0 := by
    simpa using List.length_eq_zero.not.mpr hne
  have hq0 : ((preds.length : ℚ)) ≠ 0 := Nat.cast_ne_zero.mpr hn0
  simp only [accuracyCode]
  rw [key, foldl_jsAdd_num]
  simp only [List.length_map, List.length_zip, hlen, min_self]
  rw [← hlen]
  simp only [jsDiv, if_neg hq0, jsMul]
  congr 1
  rw [zero_add]

/-- C5 counterexample: on test predictions [10, 5] with actual values
[10, 0] the code averages over both points (the zero-actual point
contributes 0 but is counted), yielding 50, while the formula of the claim
excludes the zero-actual point and yields 100. -/
theorem accuracy_zero_actual_cex :
    accuracyCode [10, 5] [10, 0] = JSNum.num 50 ∧
    accuracySpecExcludingZero [10, 5] [10, 0] = some 100 ∧
    JSNum.num 50 ≠ JSNum.num 100 := by
  refine ⟨?_, ?_, by simp⟩
  · simp only [accuracyCode]
    rw [show List.range ([10, 5] : List ℚ).length = [0, 1] from rfl]
    norm_num [jsIndex, pointAccuracy, jsAbs, jsSub, jsNeg, jsAdd, jsDiv, jsMul,
      jsMax, max_def]
  · norm_num [accuracySpecExcludingZero, max_def]

/-- Witness for C5 at predictions [10, 5] and actuals [10, 0]: the code
metric equals the include-zero-actual average, 50. -/
theorem accuracy_formula_amended_witness :
    accuracyCode [10, 5] [10, 0] = JSNum.num 50 := by
  have h := accuracy_formula_amended [10, 5] [10, 0] rfl (by simp)
    (by
      intro pa hpa
      simp only [List.zip_cons_cons, List.zip_nil_right, List.mem_cons,
        List.not_mem_nil, or_false] at hpa
      rcases hpa with h1 | h1 <;> rw [h1] <;> norm_num)
  refine h.trans ?_
  norm_num [max_def]

/-- Stable insertion produces a permutation of consing the element. -/
theorem insertByAccuracyDesc_perm (m : CandidateModel) (l : List CandidateModel) :
    (insertByAccuracyDesc m l).Perm (m :: l) := by
  induction l with
  | nil => simp [insertByAccuracyDesc]
  | cons x xs ih =>
    simp only [insertByAccuracyDesc]
    split
    · exact List.Perm.refl _
    · exact (List.Perm.cons x ih).trans (List.Perm.swap m x xs)

/-- The accuracy-descending sort permutes its input. -/
theorem sortByAccuracyDesc_perm (l : List CandidateModel) :
    (sortByAccuracyDesc l).Perm l := by
  induction l with
  | nil => simp [sortByAccuracyDesc]
  | cons x xs ih =>
    simp only [sortByAccuracyDesc]
    exact (insertByAccuracyDesc_perm x _).trans (List.Perm.cons x ih)

/-- Stable insertion preserves the accuracy-descending pairwise order. -/
theorem insertByAccuracyDesc_pairwise (m : CandidateModel) (l : List CandidateModel)
    (hl : l.Pairwise fun p q => q.accuracy ≤ p.accuracy) :
    (insertByAccuracyDesc m l).Pairwise fun p q => q.accuracy ≤ p.accuracy := by
  induction l with
  | nil => simp [insertByAccuracyDesc]
  | cons x xs ih =>
    rw [List.pairwise_cons] at hl
    simp only [insertByAccuracyDesc]
    split_ifs with hxm
    · rw [List.pairwise_cons]
      refine ⟨?_, List.pairwise_cons.mpr hl⟩
      intro y hy
      rcases List.mem_cons.mp hy with rfl | hy2
      · exact hxm
      · exact le_trans (hl.1 y hy2) hxm
    · push_neg at hxm
      rw [List.pairwise_cons]
      refine ⟨?_, ih hl.2⟩
      intro y hy
      have hy3 := (insertByAccuracyDesc_perm m xs).mem_iff.mp hy
      rcases List.mem_cons.mp hy3 with rfl | hy2
      · exact le_of_lt hxm
      · exact hl.1 y hy2

/-- The accuracy-descending sort is pairwise sorted by descending accuracy. -/
theorem sortByAccuracyDesc_pairwise (l : List CandidateModel) :
    (sortByAccuracyDesc l).Pairwise fun p q => q.accuracy ≤ p.accuracy := by
  induction l with
  | nil => simp [sortByAccuracyDesc]
  | cons x xs ih => exact insertByAccuracyDesc_pairwise x _ ih

/-- In a list pairwise sorted by descending accuracy, the head bounds every
member. -/
theorem pairwise_head_max (l : List CandidateModel)
    (hl : l.Pairwise fun p q => q.accuracy ≤ p.accuracy) :
    ∀ m ∈ l, m.accuracy ≤ (l.headD m).accuracy := by
  intro m hm
  cases l with
  | nil => simp at hm
  | cons x xs =>
    rcases List.mem_cons.mp hm with rfl | hm2
    · simp
    · simpa using (List.pairwise_cons.mp hl).1 m hm2

/-- C6 amended: the grid search enumerates exactly the 4 configurations of
the Cartesian product in nested order and attempts them in that order; the
returned sequence is the successful candidates sorted by accuracyPercent
descending, with ties kept in enumeration order (the stable sort compares
accuracy only, never meanAbsoluteError); the first entry has maximal
accuracy among the successes. -/
theorem autoTune_sorted_amended :
    hyperparameterCombinations =
      [⟨3, 32, 1 / 10⟩, ⟨3, 50, 1 / 10⟩, ⟨3, 64, 1 / 10⟩, ⟨3, 100, 1 / 10⟩] ∧
    hyperparameterCombinations.length = 4 ∧
    ∀ trainer : HPConfig → Option CandidateModel,
      (autoTuneModels trainer).Perm (hyperparameterCombinations.filterMap trainer) ∧
      (autoTuneModels trainer).Pairwise (fun p q => q.accuracy ≤ p.accuracy) ∧
      ∀ m ∈ autoTuneModels trainer,
        m.accuracy ≤ ((autoTuneModels trainer).headD m).accuracy := by
  refine ⟨rfl, rfl, fun trainer => ⟨sortByAccuracyDesc_perm _,
    sortByAccuracyDesc_pairwise _, pairwise_head_max _ (sortByAccuracyDesc_pairwise _)⟩⟩

/-- Witness for C6 with the trainer whose accuracy equals the neuron count:
the 32-neuron candidate is bounded by the head of the returned sequence. -/
theorem autoTune_sorted_amended_witness :
    (⟨⟨3, 32, 1 / 10⟩, 0, 32⟩ : CandidateModel).accuracy ≤
      ((autoTuneModels neuronsTrainer).headD ⟨⟨3, 32, 1 / 10⟩, 0, 32⟩).accuracy := by
  apply (autoTune_sorted_amended.2.2 neuronsTrainer).2.2
  have hev : autoTuneModels neuronsTrainer =
      [⟨⟨3, 100, 1 / 10⟩, 0, 100⟩, ⟨⟨3, 64, 1 / 10⟩, 0, 64⟩,
       ⟨⟨3, 50, 1 / 10⟩, 0, 50⟩, ⟨⟨3, 32, 1 / 10⟩, 0, 32⟩] := by
    norm_num [autoTuneModels, hyperparameterCombinations, HYPERPARAMETERS_lookback,
      HYPERPARAMETERS_lstmNeurons, HYPERPARAMETERS_dropout, neuronsTrainer,
      sortByAccuracyDesc, insertByAccuracyDesc]
  rw [hev]
  simp

/-- C6 counterexample: under a trainer where the 32- and 50-neuron
configurations tie at accuracy 90 with maes 100 and 5, the returned sequence
keeps enumeration order (mae 100 first), so it is not sorted by the order of
the claim (ties broken by lower mae). -/
theorem autoTune_tiebreak_cex :
    autoTuneModels tieBreakTrainer =
      [⟨⟨3, 32, 1 / 10⟩, 100, 90⟩, ⟨⟨3, 50, 1 / 10⟩, 5, 90⟩] ∧
    ¬ (autoTuneModels tieBreakTrainer).Pairwise claimTuneOrder := by
  have hev : autoTuneModels tieBreakTrainer =
      [⟨⟨3, 32, 1 / 10⟩, 100, 90⟩, ⟨⟨3, 50, 1 / 10⟩, 5, 90⟩] := by
    norm_num [autoTuneModels, hyperparameterCombinations, HYPERPARAMETERS_lookback,
      HYPERPARAMETERS_lstmNeurons, HYPERPARAMETERS_dropout, tieBreakTrainer,
      sortByAccuracyDesc, insertByAccuracyDesc]
  refine ⟨hev, ?_⟩
  rw [hev]
  intro hpw
  have h1 := (List.pairwise_cons.mp hpw).1 _ (List.mem_cons_self _ _)
  rcases h1 with h2 | h2
  · exact absurd h2 (by norm_num)
  · exact absurd h2.2 (by norm_num)

/-- The prediction loop emits exactly as many predictions as requested. -/
theorem rollout_length (predict : List JSNum → JSNum) :
    ∀ (n : ℕ) (cur : List JSNum), (rollout predict n cur).length = n
  | 0, _ => rfl
  | n + 1, cur => by
    simp only [rollout, List.length_cons]
    rw [rollout_length predict n]

/-- Advancing the seed by one step shifts the autoregressive window
sequence. -/
theorem autoregWindow_shift (predict : List JSNum → JSNum) (w : List JSNum) :
    ∀ i : ℕ, autoregWindow predict (w.tail ++ [predict w]) i =
      autoregWindow predict w (i + 1)
  | 0 => rfl
  | i + 1 => by
    show (autoregWindow predict (w.tail ++ [predict w]) i).tail ++
        [predict (autoregWindow predict (w.tail ++ [predict w]) i)] =
      (autoregWindow predict w (i + 1)).tail ++
        [predict (autoregWindow predict w (i + 1))]
    rw [autoregWindow_shift predict w i]

/-- The i-th prediction of the loop is the predictor applied to the i-th
autoregressive window. -/
theorem rollout_getD (predict : List JSNum → JSNum) :
    ∀ (n : ℕ) (cur : List JSNum) (i : ℕ), i < n →
      (rollout predict n cur).getD i JSNum.nan =
        predict (autoregWindow predict cur i)
  | 0, _, i, hi => absurd hi (Nat.not_lt_zero i)
  | n + 1, cur, 0, _ => rfl
  | n + 1, cur, i + 1, hi => by
    simp only [rollout, List.getD_cons_succ]
    rw [rollout_getD predict n _ i (Nat.lt_of_succ_lt_succ hi),
      autoregWindow_shift]

/-- Shared characterization of generateForecast: output length, years, and
the autoregressive dependence of each point.  Used by the C7 and C8
theorems. -/
theorem generateForecast_spec_aux (predict : List JSNum → JSNum)
    (model : StoredModel) (timeSeriesData : List ℚ) (lastYear : ℚ) (N : ℕ) :
    (generateForecast predict model timeSeriesData lastYear N).length = N ∧
    (generateForecast predict model timeSeriesData lastYear N).map
        (fun p => p.year) =
      (List.range N).map (fun i : ℕ => lastYear + (i : ℚ) + 1) ∧
    ∀ i, i < N →
      (generateForecast predict model timeSeriesData lastYear N).getD i
          ⟨0, JSNum.nan, ""⟩ =
        ⟨lastYear + (i : ℚ) + 1,
         jsRound (jsAdd (jsMul (predict (autoregWindow predict
             (sliceFromEnd (normalizeData timeSeriesData).normalized
               model.lookback) i))
           (JSNum.num ((normalizeData timeSeriesData).max -
             (normalizeData timeSeriesData).min)))
           (JSNum.num (normalizeData timeSeriesData).min)), "forecast"⟩ := by
  have hlen : (generateForecast predict model timeSeriesData lastYear N).length
      = N := by
    simp only [generateForecast, List.length_map, List.enum_length,
      denormalizeData, rollout_length]
  refine ⟨hlen, ?_, ?_⟩
  · apply List.ext_getElem
    · simp only [List.length_map, hlen, List.length_range]
    · intro n h1 h2
      simp only [generateForecast, List.getElem_map, List.getElem_enum,
        List.getElem_range]
  · intro i hi
    have hi2 : i < ((denormalizeData (rollout predict N
        (sliceFromEnd (normalizeData timeSeriesData).normalized
          model.lookback)) (normalizeData timeSeriesData).min
        (normalizeData timeSeriesData).max).enum).length := by
      simp [denormalizeData, rollout_length, hi]
    simp only [generateForecast]
    rw [List.getD_eq_getElem?_getD, List.getElem?_map,
      List.getElem?_eq_getElem hi2, List.getElem_enum]
    have hi3 : i < (rollout predict N
        (sliceFromEnd (normalizeData timeSeriesData).normalized
          model.lookback)).length := by
      rw [rollout_length]
      exact hi
    simp only [Option.map_some', Option.getD_some, denormalizeData,
      List.getElem_map]
    congr 2
    rw [← List.getD_eq_getElem _ JSNum.nan hi3, rollout_getD predict N _ i hi]

/-- C7: for every predictor, model and horizon N, the forecast has exactly N
points; their years are lastHistoricalYear + 1 through lastHistoricalYear + N
in order; and the i-th point is the rounded denormalization of the predictor
applied to the i-th autoregressive window, which starts as the last lookback
normalized values of the series and advances by dropping its oldest element
and appending the previous prediction — so no point depends on any later
value. -/
theorem generateForecast_autoregressive_spec (predict : List JSNum → JSNum)
    (model : StoredModel) (timeSeriesData : List ℚ) (lastYear : ℚ) (N : ℕ) :
    (generateForecast predict model timeSeriesData lastYear N).length = N ∧
    (generateForecast predict model timeSeriesData lastYear N).map
        (fun p => p.year) =
      (List.range N).map (fun i : ℕ => lastYear + (i : ℚ) + 1) ∧
    ∀ i, i < N →
      (generateForecast predict model timeSeriesData lastYear N).getD i
          ⟨0, JSNum.nan, ""⟩ =
        ⟨lastYear + (i : ℚ) + 1,
         jsRound (jsAdd (jsMul (predict (autoregWindow predict
             (sliceFromEnd (normalizeData timeSeriesData).normalized
               model.lookback) i))
           (JSNum.num ((normalizeData timeSeriesData).max -
             (normalizeData timeSeriesData).min)))
           (JSNum.num (normalizeData timeSeriesData).min)), "forecast"⟩ :=
  generateForecast_spec_aux predict model timeSeriesData lastYear N

/-- Witness for C7: the constant predictor 1/2 over the concrete series
[0, 50, 100, 150, 200] ending in year 2020 with horizon 2 yields
(2021, 100, forecast) as first point ((1/2) denormalized over min 0, max 200
is 100). -/
theorem generateForecast_autoregressive_spec_witness :
    (generateForecast predictHalf storedModel0 forecastSeries0 2020 2).getD 0
        ⟨0, JSNum.nan, ""⟩ =
      ⟨2021, JSNum.num 100, "forecast"⟩ := by
  have h := (generateForecast_autoregressive_spec predictHalf storedModel0
    forecastSeries0 2020 2).2.2 0 (by norm_num)
  refine h.trans ?_
  have hm : (normalizeData forecastSeries0).min = 0 := by
    norm_num [normalizeData, forecastSeries0, listMin, min_def]
  have hM : (normalizeData forecastSeries0).max = 200 := by
    norm_num [normalizeData, forecastSeries0, listMax, max_def]
  rw [hm, hM]
  norm_num [predictHalf, autoregWindow, jsMul, jsAdd, jsRound]

/-- C8 (normalization parameters at forecast time): with the stored training
parameters min 0, max 100 but a forecast-time series whose recomputed
parameters are min 0, max 200, the code denormalizes the prediction 1/2 to
100 — the recomputed scale — whereas denormalizing with the stored
parameters would give 50.  The code recomputes and uses normalizeData of the
current series despite checking that the stored parameters exist. -/
theorem generateForecast_params_bug :
    generateForecast predictHalf storedModel0 forecastSeries0 2020 1 =
      [⟨2021, JSNum.num 100, "forecast"⟩] ∧
    (denormalizeData (rollout predictHalf 1 (sliceFromEnd
        (normalizeData forecastSeries0).normalized storedModel0.lookback))
        storedModel0.normMin storedModel0.normMax).map jsRound =
      [JSNum.num 50] ∧
    JSNum.num 100 ≠ JSNum.num 50 := by
  have hm : (normalizeData forecastSeries0).min = 0 := by
    norm_num [normalizeData, forecastSeries0, listMin, min_def]
  have hM : (normalizeData forecastSeries0).max = 200 := by
    norm_num [normalizeData, forecastSeries0, listMax, max_def]
  refine ⟨?_, ?_, by simp⟩
  · have h := (generateForecast_spec_aux predictHalf storedModel0
      forecastSeries0 2020 1).2.2 0 (by norm_num)
    have hlen := (generateForecast_spec_aux predictHalf storedModel0
      forecastSeries0 2020 1).1
    match hl : generateForecast predictHalf storedModel0 forecastSeries0 2020 1 with
    | [] => rw [hl] at hlen; simp at hlen
    | [p] =>
      rw [hl] at h
      simp only [List.getD_cons_zero] at h
      rw [h, hm, hM]
      norm_num [predictHalf, autoregWindow, jsMul, jsAdd, jsRound]
    | p :: q :: rest => rw [hl] at hlen; simp at hlen
  · rw [show storedModel0.normMin = 0 from rfl, show storedModel0.normMax = 100 from rfl]
    norm_num [rollout, predictHalf, denormalizeData, jsMul, jsAdd, jsRound]

/-- Folding the aggregation step over the non-Year entries accumulates the
wrapped counts of the object-shaped values and nothing else. -/
theorem foldl_category_contribution (l : List (String × FieldVal)) (a : ℚ) :
    l.foldl (fun totalEmigrants kv =>
        if kv.1 = "Year" then totalEmigrants
        else totalEmigrants + categoryContribution kv.2) a =
      a + ((l.filter fun kv => kv.1 ≠ "Year").filterMap fun kv => objValCount kv.2).sum := by
  induction l generalizing a with
  | nil => simp
  | cons kv l ih =>
    by_cases hk : kv.1 = "Year"
    · simp only [List.foldl_cons, if_pos hk, List.filter_cons, hk]
      simp [ih]
    · simp only [List.foldl_cons, if_neg hk, List.filter_cons, hk]
      rw [ih]
      cases h2 : kv.2 <;>
        simp [categoryContribution, objValCount, List.filterMap_cons, h2, hk,
          add_assoc]

/-- The aggregated value of one record: the fold over all its entries, the
Year entry contributing nothing. -/
theorem record_total (r : YearRecord) :
    (("Year", FieldVal.numVal r.year) :: r.fields).foldl
      (fun totalEmigrants kv =>
        if kv.1 = "Year" then totalEmigrants
        else totalEmigrants + categoryContribution kv.2) 0 =
      ((r.fields.filter fun kv => kv.1 ≠ "Year").filterMap fun kv => objValCount kv.2).sum := by
  rw [List.foldl_cons, foldl_category_contribution]
  simp

/-- C9 amended: the aggregator yields one value per record; each value is the
sum of the numeric emigrants fields of the object-shaped category values
(the Year key skipped), whatever their sign; every non-object value
contributes 0, no error is raised for missing categories, and a record with
no object-shaped categories yields 0 (the empty sum). -/
theorem extractTimeSeries_amended (records : List YearRecord) :
    (extractTimeSeriesData records).length = records.length ∧
    ∀ i, i < records.length →
      (extractTimeSeriesData records).getD i 0 =
        (((records.getD i default).fields.filter fun kv =>
          kv.1 ≠ "Year").filterMap fun kv => objValCount kv.2).sum := by
  refine ⟨by simp [extractTimeSeriesData], ?_⟩
  intro i hi
  simp only [extractTimeSeriesData]
  rw [List.getD_eq_getElem?_getD, List.getElem?_map, List.getElem?_eq_getElem hi]
  simp only [Option.map_some', Option.getD_some]
  rw [record_total, List.getD_eq_getElem _ _ hi]

/-- Witness for C9 at a record with one object-shaped count 3 and one
non-object category: the aggregate is 3. -/
theorem extractTimeSeries_amended_witness :
    (extractTimeSeriesData
        [⟨2000, [("USA", FieldVal.objVal 3), ("Canada", FieldVal.otherVal)]⟩]).getD
      0 0 = 3 := by
  have h := (extractTimeSeries_amended
    [⟨2000, [("USA", FieldVal.objVal 3), ("Canada", FieldVal.otherVal)]⟩]).2 0
    (by norm_num)
  refine h.trans ?_
  norm_num [objValCount, List.filter_cons, List.filterMap_cons,
    show ¬("USA" : String) = "Year" from by decide,
    show ¬("Canada" : String) = "Year" from by decide]

/-- C9 counterexample: a category holding the wrapped negative count -5 is
not skipped: the code adds it, so the aggregate is -5 where the claim (skip
any non-positive count) requires 0. -/
theorem extractTimeSeries_negative_cex :
    extractTimeSeriesData [negCountRecord] = [(-5 : ℚ)] ∧
    extractTimeSeriesData [negCountRecord] ≠ [(0 : ℚ)] := by
  have h : extractTimeSeriesData [negCountRecord] = [(-5 : ℚ)] := by
    norm_num [extractTimeSeriesData, negCountRecord, categoryContribution,
      show ¬("USA" : String) = "Year" from by decide]
  refine ⟨h, ?_⟩
  rw [h]
  simp

/-- C10: in the CSV export, every combined row whose actual value is exactly
0 has its value cell computed as actual || predicted, so the cell holds the
predicted value (empty when predicted is absent) rather than the literal 0;
in particular a historical row (no predicted value) with actual 0 is never
exported as 0. -/
theorem exportForecast_zero_actual (rows : List CombinedRow) (i : ℕ)
    (hi : i < rows.length) (h0 : (rows.getD i default).actual = some 0) :
    (exportCombinedRows rows).getD i default =
      ((rows.getD i default).year, (rows.getD i default).predicted,
        (rows.getD i default).rowType) ∧
    ((rows.getD i default).predicted = none →
      ((exportCombinedRows rows).getD i default).2.1 ≠ some 0) := by
  have key : (exportCombinedRows rows).getD i default =
      ((rows.getD i default).year, (rows.getD i default).predicted,
        (rows.getD i default).rowType) := by
    simp only [exportCombinedRows]
    rw [List.getD_eq_getElem?_getD, List.getElem?_map, List.getElem?_eq_getElem hi]
    rw [List.getD_eq_getElem _ _ hi] at h0 ⊢
    simp [jsOrNum, h0]
  refine ⟨key, ?_⟩
  intro hp
  rw [key, hp]
  simp

/-- Witness for C10 at a single row with year 2015, actual 0, predicted 7:
the exported cell is the predicted 7. -/
theorem exportForecast_zero_actual_witness :
    (exportCombinedRows [⟨2015, some 0, some 7, "historical"⟩]).getD 0 default =
      ((2015 : ℚ), some (7 : ℚ), "historical") := by
  have h := exportForecast_zero_actual [⟨2015, some 0, some 7, "historical"⟩] 0
    (by norm_num) (by rfl)
  exact h.1.trans (by rfl)
